import Mathlib

/-!
# PayPal-MCP worker: shallow embedding and verification

This file embeds the PayPal client core of the repository (the Cloudflare
worker class in `src/unnamed/part_000` and its earlier variant
`src/paypal-mcp/src/index.ts`; the two agree on every behaviour modelled
here) and proves or refutes the frozen claims about it.

Modelling conventions:
* JSON values are the inductive `Json`; a JavaScript `undefined` is
  represented as `Option.none` where a value may be absent.
* The network (`fetch` plus `response.json()`) is an explicit oracle
  `Request → FetchOutcome`; a rejected promise is `FetchOutcome.throws`,
  a resolved response carries its numeric status and either the parsed
  JSON body or the message of the `JSON` decoding error.
* The worker's only instance state (`this.paypalConfig`) is threaded
  explicitly as `WorkerState`; every operation returns its result, the
  new state, and the list of outbound requests it issued, in order.
* Machine integers do not occur: HTTP statuses are `Nat`.
* The `{content:[{type:'text', text: JSON.stringify(envelope)}]}` wrapper
  that the dispatch layer adds around each operation result round-trips
  through `JSON.parse` at its only consumer (the `/success` handler), so
  operations here return the envelope itself.
* Response headers (CORS and content type) other than `Content-Type` are
  constant in the source and are not modelled; no claim mentions them.
-/

/-- JSON values, as produced by `response.json()` and consumed by
`JSON.stringify`. Numbers are integers: no claim involves a non-integral
number (`expires_in` is the only numeric field in the source). -/
inductive Json where
  | null : Json
  | bool : Bool → Json
  | num : Int → Json
  | str : String → Json
  | arr : List Json → Json
  | obj : List (String × Json) → Json

/-- First-match key lookup in a JSON object's field list, as JavaScript
property access on an object literal (the source never builds duplicate
keys). -/
def lookupField : List (String × Json) → String → Option Json
  | [], _ => none
  | (k, v) :: rest, key => if k = key then some v else lookupField rest key

/-- JavaScript property read `o.key` on a defined object value: `none` is
`undefined` (key absent, or receiver not an object). -/
def Json.getField : Json → String → Option Json
  | Json.obj fields, key => lookupField fields key
  | _, _ => none

/-- JavaScript property read on a possibly `undefined`/`null` receiver:
reading a property of `undefined` or `null` throws a `TypeError` (the
message text is engine specific; only the fact of the throw matters to the
code, which catches it). -/
def jsProp : Option Json → String → Except String (Option Json)
  | none, _ => Except.error "TypeError: Cannot read properties of undefined"
  | some Json.null, _ => Except.error "TypeError: Cannot read properties of null"
  | some (Json.obj fields), key => Except.ok (lookupField fields key)
  | some _, _ => Except.ok none

/-- JavaScript index read `a[i]` on a possibly `undefined`/`null` receiver. -/
def jsIndex : Option Json → Nat → Except String (Option Json)
  | none, _ => Except.error "TypeError: Cannot read properties of undefined"
  | some Json.null, _ => Except.error "TypeError: Cannot read properties of null"
  | some (Json.arr xs), i => Except.ok (xs.get? i)
  | some _, _ => Except.ok none

/-- JavaScript template-literal display of a value. Only the `undefined`
and string cases are exercised by the source's interpolations; the
remaining cases follow the JavaScript coercions for primitive values
(array and object display are simplified, no claim reaches them). -/
def jsDisplay : Option Json → String
  | none => "undefined"
  | some Json.null => "null"
  | some (Json.bool true) => "true"
  | some (Json.bool false) => "false"
  | some (Json.num n) => toString n
  | some (Json.str s) => s
  | some (Json.arr _) => ""
  | some (Json.obj _) => "[object Object]"

/-- JavaScript truthiness of a possibly-absent string (`undefined` and the
empty string are falsy; every other string is truthy). -/
def jsTruthy : Option Json → Bool
  | some (Json.str s) => !(s == "")
  | some Json.null => false
  | some (Json.bool b) => b
  | some (Json.num n) => !(n == 0)
  | some (Json.arr _) => true
  | some (Json.obj _) => true
  | none => false

/-- JavaScript truthiness of an optional string parameter. -/
def strTruthy : Option String → Bool
  | none => false
  | some s => !(s == "")

/-- JavaScript `a || b` for an optional string `a` with fallback `b`. -/
def jsOrElse (a : Option String) (b : String) : String :=
  match a with
  | none => b
  | some s => if s == "" then b else s

/-- Whether `hay` starts with `needle` (character lists). -/
def charsBeginWith : List Char → List Char → Bool
  | _, [] => true
  | [], _ :: _ => false
  | a :: as, b :: bs => (a == b) && charsBeginWith as bs

/-- Whether `needle` occurs contiguously inside `hay` (character lists). -/
def charsContain : List Char → List Char → Bool
  | [], needle => charsBeginWith [] needle
  | a :: as, needle => charsBeginWith (a :: as) needle || charsContain as needle

/-- Whether the string `needle` occurs as a contiguous substring of `hay`. -/
def strContains (hay needle : String) : Bool :=
  charsContain hay.data needle.data

/-- The base64 alphabet digit for a 6-bit value. -/
def base64Digit (n : Nat) : Char :=
  "ABCDEFGHIJKLMNOPQRSTUVWXYZabcdefghijklmnopqrstuvwxyz0123456789+/".data.getD n '='

/-- RFC 4648 base64 of a byte list, with padding, as the platform `btoa`. -/
def btoaChunks : List Nat → List Char
  | [] => []
  | [a] => [base64Digit (a / 4), base64Digit (a % 4 * 16), '=', '=']
  | [a, b] => [base64Digit (a / 4), base64Digit (a % 4 * 16 + b / 16),
      base64Digit (b % 16 * 4), '=']
  | a :: b :: c :: rest =>
      base64Digit (a / 4) :: base64Digit (a % 4 * 16 + b / 16) ::
      base64Digit (b % 16 * 4 + c / 64) :: base64Digit (c % 64) :: btoaChunks rest

/-- The platform `btoa` on a Latin-1 string (the source applies it to
`clientId:clientSecret`). -/
def btoa (s : String) : String :=
  String.mk (btoaChunks (s.data.map Char.toNat))

/-- `PayPalConfig` of the source: resolved mode plus the two credentials.
The TypeScript annotation restricts `mode` to `sandbox | live` but is not
enforced at runtime, so the field is an arbitrary string here. -/
structure PayPalConfig where
  mode : String
  clientId : String
  clientSecret : String

/-- `Env` of the source: the worker's environment bindings. `PAYPAL_MODE`
is optional because an unset binding is `undefined` (falsy); an empty
string binding is also falsy. -/
structure Env where
  PAYPAL_MODE : Option String
  PAYPAL_CLIENT_ID : String
  PAYPAL_CLIENT_SECRET : String
  SHARED_SECRET : String

/-- The worker instance's mutable state: the lazily resolved
`this.paypalConfig` (there is no token cache in the source). -/
structure WorkerState where
  paypalConfig : Option PayPalConfig

/-- `getPayPalConfig` of the source: on a `null` cache, resolve
`{mode: env.PAYPAL_MODE || 'sandbox', clientId, clientSecret}` and store
it; otherwise return the cached value. Returns the config and the new
cache field. -/
def getPayPalConfig (env : Env) (cached : Option PayPalConfig) :
    PayPalConfig × Option PayPalConfig :=
  match cached with
  | some c => (c, some c)
  | none =>
    let c : PayPalConfig :=
      { mode := if strTruthy env.PAYPAL_MODE then env.PAYPAL_MODE.getD "" else "sandbox"
        clientId := env.PAYPAL_CLIENT_ID
        clientSecret := env.PAYPAL_CLIENT_SECRET }
    (c, some c)

/-- The URL fragment shared by every outbound call of the source:
the template `https://api${mode === 'sandbox' ? '.sandbox' : ''}.paypal.com`. -/
def apiBase (config : PayPalConfig) : String :=
  "https://api" ++ (if config.mode == "sandbox" then ".sandbox" else "") ++ ".paypal.com"

/-- The OAuth token endpoint URL of `getAccessToken`. -/
def tokenUrl (config : PayPalConfig) : String :=
  apiBase config ++ "/v1/oauth2/token"

/-- The order-creation endpoint URL of `createPaypalOrder`. -/
def ordersUrl (config : PayPalConfig) : String :=
  apiBase config ++ "/v2/checkout/orders"

/-- The capture endpoint URL of `capturePaypalOrder`. -/
def captureOrderUrl (config : PayPalConfig) (orderId : String) : String :=
  apiBase config ++ "/v2/checkout/orders/" ++ orderId ++ "/capture"

/-- The refund endpoint URL of `refundPaypalCapture`. -/
def refundUrl (config : PayPalConfig) (captureId : String) : String :=
  apiBase config ++ "/v2/payments/captures/" ++ captureId ++ "/refund"

/-- The order-details endpoint URL of `getPaypalOrder`. -/
def getOrderUrl (config : PayPalConfig) (orderId : String) : String :=
  apiBase config ++ "/v2/checkout/orders/" ++ orderId

/-- The URL `u` is an `https` URL whose host component is `h`. -/
def urlHasHost (u h : String) : Prop :=
  ∃ rest, u = "https://" ++ h ++ "/" ++ rest

/-- All five outbound URLs of the worker (the token endpoint and the four
operation endpoints) have host `h`. -/
def hostsAre (config : PayPalConfig) (orderId captureId h : String) : Prop :=
  urlHasHost (tokenUrl config) h ∧
  urlHasHost (ordersUrl config) h ∧
  urlHasHost (captureOrderUrl config orderId) h ∧
  urlHasHost (refundUrl config captureId) h ∧
  urlHasHost (getOrderUrl config orderId) h

/-- An outbound request body: the token request sends a raw form-encoded
string, the operations send `JSON.stringify` of a JSON value. -/
inductive RequestBody where
  | raw : String → RequestBody
  | json : Json → RequestBody

/-- An outbound `fetch` request as the source constructs it: method, full
URL, headers, optional body. -/
structure Request where
  method : String
  url : String
  headers : List (String × String)
  body : Option RequestBody

/-- Outcome of one outbound `fetch` followed by `response.json()`: either
the fetch promise rejects with a message, or a response arrives with a
numeric status and either its parsed JSON body or the message of the JSON
decoding error. -/
inductive FetchOutcome where
  | throws : String → FetchOutcome
  | response : Nat → Except String Json → FetchOutcome

/-- `response.ok` of the Fetch standard: status in the inclusive range
200–299. -/
def responseOk (status : Nat) : Bool :=
  decide (200 ≤ status ∧ status < 300)

/-- `await fetch(...)` followed by `await response.json()`: either throw
(rejected fetch, or body decoding error) or produce the status and body. -/
def fetchJson (net : Request → FetchOutcome) (req : Request) :
    Except String (Nat × Json) :=
  match net req with
  | FetchOutcome.throws m => Except.error m
  | FetchOutcome.response status bodyE =>
    match bodyE with
    | Except.error m => Except.error m
    | Except.ok body => Except.ok (status, body)

/-- The token request of `getAccessToken`: POST to the OAuth endpoint with
HTTP Basic credentials `btoa(clientId:clientSecret)` and the
client-credentials grant body. -/
def tokenRequest (config : PayPalConfig) : Request :=
  { method := "POST"
    url := tokenUrl config
    headers := [("Authorization", "Basic " ++ btoa (config.clientId ++ ":" ++ config.clientSecret)),
                ("Content-Type", "application/x-www-form-urlencoded")]
    body := some (RequestBody.raw "grant_type=client_credentials") }

/-- `return data.access_token` of `getAccessToken`: a property read on the
parsed body (throws on a `null` body, yields `undefined` when absent),
displayed as the string the later `Bearer ${...}` interpolation would use. -/
def tokenFromBody (body : Json) : Except String String :=
  match jsProp (some body) "access_token" with
  | Except.error m => Except.error m
  | Except.ok v => Except.ok (jsDisplay v)

/-- The tail of `getAccessToken` after `fetch`: rethrow a rejected fetch;
on a non-ok status throw `Error('Failed to get PayPal access token')`
without touching the body; on an ok status parse the body (rethrowing a
decoding error) and return its `access_token` field. -/
def tokenOutcome (o : FetchOutcome) : Except String String :=
  match o with
  | FetchOutcome.throws m => Except.error m
  | FetchOutcome.response status bodyE =>
    if responseOk status then
      match bodyE with
      | Except.error m => Except.error m
      | Except.ok body => tokenFromBody body
    else Except.error "Failed to get PayPal access token"

/-- `getAccessToken` of the source: resolve the config (caching it), issue
the token request, and produce the token or the thrown error, the new
worker state, and the single outbound request issued. -/
def getAccessToken (env : Env) (st : WorkerState) (net : Request → FetchOutcome) :
    Except String String × WorkerState × List Request :=
  (tokenOutcome (net (tokenRequest (getPayPalConfig env st.paypalConfig).1)),
   ⟨(getPayPalConfig env st.paypalConfig).2⟩,
   [tokenRequest (getPayPalConfig env st.paypalConfig).1])

/-- The `payment` object of `createPaypalOrder` as `JSON.stringify` sends
it: `currency` defaults to `"USD"` when the argument is `undefined`, and a
`description: undefined` property is dropped by `JSON.stringify`. -/
def paymentJson (amount : String) (currency description : Option String) : Json :=
  Json.obj
    [("intent", Json.str "CAPTURE"),
     ("purchase_units", Json.arr
       [Json.obj
         ([("amount", Json.obj
             [("currency_code", Json.str (currency.getD "USD")),
              ("value", Json.str amount)])] ++
          (match description with
           | none => []
           | some d => [("description", Json.str d)]))]),
     ("application_context", Json.obj
       [("return_url", Json.str "https://paypal-mcp.imbibed.workers.dev/success"),
        ("cancel_url", Json.str "https://paypal-mcp.imbibed.workers.dev/cancel"),
        ("user_action", Json.str "PAY_NOW")])]

/-- The `refundRequest` object of `refundPaypalCapture`: the money object
is added only when `amount` is truthy (present and non-empty), with
`currency` defaulting to `"USD"`; `note_to_payer` is added only when
`note` is truthy. -/
def refundRequestJson (amount currency note : Option String) : Json :=
  Json.obj
    ((if strTruthy amount then
        [("amount", Json.obj
           [("currency_code", Json.str (currency.getD "USD")),
            ("value", Json.str (amount.getD ""))])]
      else []) ++
     (if strTruthy note then [("note_to_payer", Json.str (note.getD ""))] else []))

/-- The `purchase_units[0].amount` object of a request body built by
`createPaypalOrder`. -/
def firstPurchaseUnitAmount (j : Json) : Option Json :=
  match j.getField "purchase_units" with
  | some (Json.arr (u :: _)) => u.getField "amount"
  | _ => none

/-- The uniform result envelope of the four operations: the object the
source passes to `JSON.stringify` (`{success, data}` on a response,
`{success: false, error}` on a caught throw). Absent fields are absent,
not null. -/
structure ResultEnvelope where
  success : Bool
  data : Option Json
  error : Option String

/-- The shared tail of each operation: the `try` block's outcome becomes
`{success: response.ok, data: result}`, a caught throw becomes
`{success: false, error: pfx + message}`. -/
def finishOp (pfx : String)
    (r : Except String (Nat × Json) × WorkerState × List Request) :
    ResultEnvelope × WorkerState × List Request :=
  match r with
  | (Except.ok (status, body), st, reqs) =>
    ({ success := responseOk status, data := some body, error := none }, st, reqs)
  | (Except.error m, st, reqs) =>
    ({ success := false, data := none, error := some (pfx ++ m) }, st, reqs)

/-- The POST request of `createPaypalOrder`. -/
def ordersRequest (config : PayPalConfig) (accessToken amount : String)
    (currency description : Option String) : Request :=
  { method := "POST"
    url := ordersUrl config
    headers := [("Authorization", "Bearer " ++ accessToken),
                ("Content-Type", "application/json")]
    body := some (RequestBody.json (paymentJson amount currency description)) }

/-- The `try` block of `createPaypalOrder`: token, config, fetch, parse. -/
def createPaypalOrderCore (env : Env) (st : WorkerState)
    (net : Request → FetchOutcome) (amount : String)
    (currency description : Option String) :
    Except String (Nat × Json) × WorkerState × List Request :=
  match getAccessToken env st net with
  | (Except.error m, st1, reqs) => (Except.error m, st1, reqs)
  | (Except.ok tok, st1, reqs) =>
    (fetchJson net
        (ordersRequest (getPayPalConfig env st1.paypalConfig).1 tok amount currency description),
     ⟨(getPayPalConfig env st1.paypalConfig).2⟩,
     reqs ++ [ordersRequest (getPayPalConfig env st1.paypalConfig).1 tok amount currency description])

/-- `createPaypalOrder` of the source. -/
def createPaypalOrder (env : Env) (st : WorkerState)
    (net : Request → FetchOutcome) (amount : String)
    (currency description : Option String) :
    ResultEnvelope × WorkerState × List Request :=
  finishOp "Failed to create PayPal payment: "
    (createPaypalOrderCore env st net amount currency description)

/-- The POST request of `capturePaypalOrder` (no body). -/
def captureRequest (config : PayPalConfig) (accessToken orderId : String) : Request :=
  { method := "POST"
    url := captureOrderUrl config orderId
    headers := [("Authorization", "Bearer " ++ accessToken),
                ("Content-Type", "application/json")]
    body := none }

/-- The `try` block of `capturePaypalOrder`. -/
def capturePaypalOrderCore (env : Env) (st : WorkerState)
    (net : Request → FetchOutcome) (orderId : String) :
    Except String (Nat × Json) × WorkerState × List Request :=
  match getAccessToken env st net with
  | (Except.error m, st1, reqs) => (Except.error m, st1, reqs)
  | (Except.ok tok, st1, reqs) =>
    (fetchJson net (captureRequest (getPayPalConfig env st1.paypalConfig).1 tok orderId),
     ⟨(getPayPalConfig env st1.paypalConfig).2⟩,
     reqs ++ [captureRequest (getPayPalConfig env st1.paypalConfig).1 tok orderId])

/-- `capturePaypalOrder` of the source. -/
def capturePaypalOrder (env : Env) (st : WorkerState)
    (net : Request → FetchOutcome) (orderId : String) :
    ResultEnvelope × WorkerState × List Request :=
  finishOp "Failed to capture PayPal payment: "
    (capturePaypalOrderCore env st net orderId)

/-- The POST request of `refundPaypalCapture`. -/
def refundRequest (config : PayPalConfig) (accessToken captureId : String)
    (amount currency note : Option String) : Request :=
  { method := "POST"
    url := refundUrl config captureId
    headers := [("Authorization", "Bearer " ++ accessToken),
                ("Content-Type", "application/json")]
    body := some (RequestBody.json (refundRequestJson amount currency note)) }

/-- The `try` block of `refundPaypalCapture`. -/
def refundPaypalCaptureCore (env : Env) (st : WorkerState)
    (net : Request → FetchOutcome) (captureId : String)
    (amount currency note : Option String) :
    Except String (Nat × Json) × WorkerState × List Request :=
  match getAccessToken env st net with
  | (Except.error m, st1, reqs) => (Except.error m, st1, reqs)
  | (Except.ok tok, st1, reqs) =>
    (fetchJson net
        (refundRequest (getPayPalConfig env st1.paypalConfig).1 tok captureId amount currency note),
     ⟨(getPayPalConfig env st1.paypalConfig).2⟩,
     reqs ++ [refundRequest (getPayPalConfig env st1.paypalConfig).1 tok captureId amount currency note])

/-- `refundPaypalCapture` of the source. -/
def refundPaypalCapture (env : Env) (st : WorkerState)
    (net : Request → FetchOutcome) (captureId : String)
    (amount currency note : Option String) :
    ResultEnvelope × WorkerState × List Request :=
  finishOp "Failed to process refund: "
    (refundPaypalCaptureCore env st net captureId amount currency note)

/-- The GET request of `getPaypalOrder` (no body). -/
def getOrderRequest (config : PayPalConfig) (accessToken orderId : String) : Request :=
  { method := "GET"
    url := getOrderUrl config orderId
    headers := [("Authorization", "Bearer " ++ accessToken),
                ("Content-Type", "application/json")]
    body := none }

/-- The `try` block of `getPaypalOrder`. -/
def getPaypalOrderCore (env : Env) (st : WorkerState)
    (net : Request → FetchOutcome) (orderId : String) :
    Except String (Nat × Json) × WorkerState × List Request :=
  match getAccessToken env st net with
  | (Except.error m, st1, reqs) => (Except.error m, st1, reqs)
  | (Except.ok tok, st1, reqs) =>
    (fetchJson net (getOrderRequest (getPayPalConfig env st1.paypalConfig).1 tok orderId),
     ⟨(getPayPalConfig env st1.paypalConfig).2⟩,
     reqs ++ [getOrderRequest (getPayPalConfig env st1.paypalConfig).1 tok orderId])

/-- `getPaypalOrder` of the source. -/
def getPaypalOrder (env : Env) (st : WorkerState)
    (net : Request → FetchOutcome) (orderId : String) :
    ResultEnvelope × WorkerState × List Request :=
  finishOp "Failed to get order details: "
    (getPaypalOrderCore env st net orderId)

/-- The number of outbound requests in a trace that target the OAuth token
endpoint (either mode's host). -/
def countTokenRequests (reqs : List Request) : Nat :=
  (reqs.filter (fun r =>
    (r.url == "https://api.sandbox.paypal.com/v1/oauth2/token") ||
    (r.url == "https://api.paypal.com/v1/oauth2/token"))).length

/-- An inbound HTTP request as the `fetch` handler inspects it: the URL
path and the `token` / `PayerID` query parameters (`none` when absent;
`url.searchParams.get` yields `null` then). -/
structure HttpRequestIn where
  path : String
  queryToken : Option String
  queryPayerID : Option String

/-- An outbound HTTP response of the `fetch` handler: status, the
`Content-Type` header, and the body text. The constant CORS headers are
not modelled. -/
structure HttpResponseOut where
  status : Nat
  contentType : String
  body : String

/-- Result of the `fetch` handler: either a response it built itself
(together with the outbound PayPal requests made while building it), or
delegation of a non-`/success` route to the out-of-scope `ProxyToSelf`
dispatch layer. -/
inductive FetchResult where
  | handled : HttpResponseOut → List Request → FetchResult
  | proxied : FetchResult

/-- The response of a `FetchResult` (dummy response for the delegated
case, which no claim inspects). -/
def fetchRespOf : FetchResult → HttpResponseOut
  | FetchResult.handled r _ => r
  | FetchResult.proxied => ⟨0, "", ""⟩

/-- The outbound PayPal requests of a `FetchResult`. -/
def fetchOutboundOf : FetchResult → List Request
  | FetchResult.handled _ reqs => reqs
  | FetchResult.proxied => []

/-- The success page template of the `/success` route, with the three
interpolations `${token}`, `${resultData.data.status}` and
`$${...value} ${...currency_code}` spliced in. -/
def successHtml (token statusStr value currency : String) : String :=
  "<html>\n              <head>\n                <title>Payment Successful</title>\n                <style>\n                  body \x7b font-family: Arial, sans-serif; max-width: 800px; margin: 40px auto; padding: 20px; text-align: center; \x7d\n                  .success \x7b color: #28a745; font-size: 24px; margin-bottom: 20px; \x7d\n                  .details \x7b background: #f8f9fa; padding: 20px; border-radius: 8px; text-align: left; \x7d\n                </style>\n              </head>\n              <body>\n                <h1 class=\"success\">Payment Successful!</h1>\n                <div class=\"details\">\n                  <p>Order ID: "
  ++ token ++ "</p>\n                  <p>Status: " ++ statusStr
  ++ "</p>\n                  <p>Amount: $" ++ value ++ " " ++ currency
  ++ "</p>\n                </div>\n              </body>\n            </html>"

/-- The error page template of the `/success` route (PayPal-reported
failure, rendered with status 200), with `${resultData.error || ...}`
spliced in. -/
def errorHtml (message : String) : String :=
  "<html>\n              <head>\n                <title>Payment Error</title>\n                <style>\n                  body \x7b font-family: Arial, sans-serif; max-width: 800px; margin: 40px auto; padding: 20px; text-align: center; \x7d\n                  .error \x7b color: #dc3545; font-size: 24px; margin-bottom: 20px; \x7d\n                </style>\n              </head>\n              <body>\n                <h1 class=\"error\">Payment Error</h1>\n                <p>"
  ++ message ++ "</p>\n              </body>\n            </html>"

/-- The catch-all error page of the `/success` route (uncaught exception,
rendered with status 500), with `${error.message}` spliced in. -/
def errorHtml500 (message : String) : String :=
  "\n          <html>\n            <head>\n              <title>Payment Error</title>\n              <style>\n                body \x7b font-family: Arial, sans-serif; max-width: 800px; margin: 40px auto; padding: 20px; text-align: center; \x7d\n                .error \x7b color: #dc3545; font-size: 24px; margin-bottom: 20px; \x7d\n              </style>\n            </head>\n            <body>\n              <h1 class=\"error\">Payment Error</h1>\n              <p>"
  ++ message ++ "</p>\n            </body>\n          </html>\n        "

/-- The body of the `try` block of the `/success` route after the capture
call: pick the success or error page from the envelope; the property
chains on `resultData.data` evaluate left to right and may throw a
`TypeError`, which the enclosing `catch` turns into the 500 page. -/
def renderOutcome (token : String) (envl : ResultEnvelope) : Except String String :=
  if envl.success then do
    let statusV ← jsProp envl.data "status"
    let pu ← jsProp envl.data "purchase_units"
    let pu0 ← jsIndex pu 0
    let payments ← jsProp pu0 "payments"
    let caps ← jsProp payments "captures"
    let cap0 ← jsIndex caps 0
    let amountObj ← jsProp cap0 "amount"
    let v ← jsProp amountObj "value"
    let cc ← jsProp amountObj "currency_code"
    Except.ok (successHtml token (jsDisplay statusV) (jsDisplay v) (jsDisplay cc))
  else
    Except.ok (errorHtml (jsOrElse envl.error "An error occurred processing the payment."))

/-- The `fetch` handler of the source: on `/success` without a truthy
`token` query parameter answer 400 with
`JSON.stringify({error: 'Missing token parameter'})` and make no outbound
call; with a token, capture the order and render the outcome (200), or the
500 page when rendering throws; delegate every other route. -/
def handleFetch (env : Env) (st : WorkerState) (net : Request → FetchOutcome)
    (req : HttpRequestIn) : FetchResult :=
  if req.path = "/success" then
    if !(strTruthy req.queryToken) then
      FetchResult.handled
        ⟨400, "application/json", "\x7b\"error\":\"Missing token parameter\"\x7d"⟩ []
    else
      let token := req.queryToken.getD ""
      let r := capturePaypalOrder env st net token
      match renderOutcome token r.1 with
      | Except.ok html => FetchResult.handled ⟨200, "text/html", html⟩ r.2.2
      | Except.error m => FetchResult.handled ⟨500, "text/html", errorHtml500 m⟩ r.2.2
  else FetchResult.proxied

/-- A fixed sandbox environment used by the concrete evaluations. -/
def envFix : Env := ⟨some "sandbox", "cid", "csec", "shh"⟩

/-- A well-formed OAuth token response body (nine-hour validity). -/
def tokenBodyFix : Json :=
  Json.obj [("access_token", Json.str "A21AAFtok"),
            ("token_type", Json.str "Bearer"),
            ("expires_in", Json.num 32400)]

/-- A completed-capture response body for order `ORDER123` with a
`10.00 USD` capture. -/
def captureBodyFix : Json :=
  Json.obj [("id", Json.str "ORDER123"),
            ("status", Json.str "COMPLETED"),
            ("purchase_units", Json.arr
              [Json.obj [("payments", Json.obj
                 [("captures", Json.arr
                    [Json.obj [("amount", Json.obj
                       [("value", Json.str "10.00"),
                        ("currency_code", Json.str "USD")])]])])]])]

/-- A network oracle that answers the token endpoint with a fresh token,
the capture of `ORDER123` with a completed capture, and anything else with
status 201 and body `{id: "X"}`. -/
def netHappy : Request → FetchOutcome := fun r =>
  if r.url == "https://api.sandbox.paypal.com/v1/oauth2/token" then
    FetchOutcome.response 200 (Except.ok tokenBodyFix)
  else if r.url == "https://api.sandbox.paypal.com/v2/checkout/orders/ORDER123/capture" then
    FetchOutcome.response 201 (Except.ok captureBodyFix)
  else
    FetchOutcome.response 201 (Except.ok (Json.obj [("id", Json.str "X")]))

/-- A network oracle on which every fetch promise rejects. -/
def netThrow : Request → FetchOutcome := fun _ => FetchOutcome.throws "boom"

/-- A network oracle that answers everything with status 401 and a body
that is not JSON (decoding it would throw). -/
def netDeny : Request → FetchOutcome := fun _ =>
  FetchOutcome.response 401 (Except.error "Unexpected token < in JSON")

/-- First call of the back-to-back sequence used for the token-cache
claim: a create, immediately after which the issued token is valid for
another nine hours. -/
def c1first : ResultEnvelope × WorkerState × List Request :=
  createPaypalOrder envFix ⟨none⟩ netHappy "10.00" none none

/-- Second call of the back-to-back sequence, continuing from the first
call's worker state, well within the first token's validity window. -/
def c1second : ResultEnvelope × WorkerState × List Request :=
  getPaypalOrder envFix c1first.2.1 netHappy "ORD-1"

/-- A live-mode environment used to show the cached config ignores a
changed environment. -/
def envAlt : Env := ⟨some "live", "cid2", "csec2", "shh2"⟩

/-- An environment whose mode binding is the upper-case string
`SANDBOX` (truthy, but not the exact lowercase `sandbox`). -/
def envUpper : Env := ⟨some "SANDBOX", "cid", "csec", "shh"⟩

/-- An environment with no mode binding at all. -/
def envUnset : Env := ⟨none, "cid", "csec", "shh"⟩

/-! ## Helper lemmas -/

theorem finishOp_ok (pfx : String)
    (r : Except String (Nat × Json) × WorkerState × List Request)
    (status : Nat) (body : Json) (h : r.1 = Except.ok (status, body)) :
    (finishOp pfx r).1 = ⟨responseOk status, some body, none⟩ := by
  obtain ⟨e, st, reqs⟩ := r
  simp only at h
  subst h
  rfl

theorem finishOp_error (pfx : String)
    (r : Except String (Nat × Json) × WorkerState × List Request)
    (m : String) (h : r.1 = Except.error m) :
    (finishOp pfx r).1 = ⟨false, none, some (pfx ++ m)⟩ := by
  obtain ⟨e, st, reqs⟩ := r
  simp only at h
  subst h
  rfl

theorem append_ne_empty (a b : String) (h : 0 < a.length) : a ++ b ≠ "" := by
  intro hc
  have hl := congrArg String.length hc
  rw [String.length_append] at hl
  have h0 : ("" : String).length = 0 := rfl
  rw [h0] at hl
  omega

theorem urlHasHost_of_base (c : PayPalConfig) (hst p rest : String)
    (hb : apiBase c = "https://" ++ hst) (hp : p = "/" ++ rest) :
    urlHasHost (apiBase c ++ p) hst := by
  refine ⟨rest, ?_⟩
  rw [hb, hp]
  exact (String.append_assoc _ _ _).symm

theorem split_head (s1 t x : String) (h : s1 = "/" ++ t) :
    s1 ++ x = "/" ++ (t ++ x) := by
  rw [h, String.append_assoc]

theorem hostsAre_sandbox (c : PayPalConfig) (h : c.mode = "sandbox")
    (orderId captureId : String) :
    hostsAre c orderId captureId "api.sandbox.paypal.com" := by
  have hb : apiBase c = "https://" ++ "api.sandbox.paypal.com" := by
    simp only [apiBase, h]
    decide
  refine ⟨?_, ?_, ?_, ?_, ?_⟩
  · exact urlHasHost_of_base c _ _ "v1/oauth2/token" hb (by decide)
  · exact urlHasHost_of_base c _ _ "v2/checkout/orders" hb (by decide)
  · unfold captureOrderUrl
    rw [String.append_assoc, String.append_assoc]
    exact urlHasHost_of_base c _ _ _ hb (split_head _ "v2/checkout/orders/" _ (by decide))
  · unfold refundUrl
    rw [String.append_assoc, String.append_assoc]
    exact urlHasHost_of_base c _ _ _ hb (split_head _ "v2/payments/captures/" _ (by decide))
  · unfold getOrderUrl
    rw [String.append_assoc]
    exact urlHasHost_of_base c _ _ _ hb (split_head _ "v2/checkout/orders/" _ (by decide))

theorem hostsAre_live (c : PayPalConfig) (h : ¬ c.mode = "sandbox")
    (orderId captureId : String) :
    hostsAre c orderId captureId "api.paypal.com" := by
  have hbeq : (c.mode == "sandbox") = false := beq_eq_false_iff_ne.mpr h
  have hb : apiBase c = "https://" ++ "api.paypal.com" := by
    simp only [apiBase, hbeq]
    decide
  refine ⟨?_, ?_, ?_, ?_, ?_⟩
  · exact urlHasHost_of_base c _ _ "v1/oauth2/token" hb (by decide)
  · exact urlHasHost_of_base c _ _ "v2/checkout/orders" hb (by decide)
  · unfold captureOrderUrl
    rw [String.append_assoc, String.append_assoc]
    exact urlHasHost_of_base c _ _ _ hb (split_head _ "v2/checkout/orders/" _ (by decide))
  · unfold refundUrl
    rw [String.append_assoc, String.append_assoc]
    exact urlHasHost_of_base c _ _ _ hb (split_head _ "v2/payments/captures/" _ (by decide))
  · unfold getOrderUrl
    rw [String.append_assoc]
    exact urlHasHost_of_base c _ _ _ hb (split_head _ "v2/checkout/orders/" _ (by decide))

theorem refund_getField_amount (amount currency note : Option String) :
    (refundRequestJson amount currency note).getField "amount" =
      (if strTruthy amount then
        some (Json.obj [("currency_code", Json.str (currency.getD "USD")),
                        ("value", Json.str (amount.getD ""))])
      else none) := by
  cases hsa : strTruthy amount <;> cases hsn : strTruthy note <;>
    simp only [refundRequestJson, hsa, hsn] <;> rfl

theorem refund_getField_note (amount currency note : Option String) :
    (refundRequestJson amount currency note).getField "note_to_payer" =
      (if strTruthy note then some (Json.str (note.getD "")) else none) := by
  cases hsa : strTruthy amount <;> cases hsn : strTruthy note <;>
    simp only [refundRequestJson, hsa, hsn] <;> rfl

/-! ## Claim theorems -/

/-- Claim C1, evaluated at the failing input: `getAccessToken` issues an
outbound token request on every operation call, with no cache. Two
back-to-back successful calls (a create, then a get, run immediately
after the first token arrived with `expires_in = 32400`, so both fall
well inside the first token's validity window) issue two outbound token
requests, where the claim allows at most one. -/
theorem C1_two_calls_two_token_requests :
    countTokenRequests (c1first.2.2 ++ c1second.2.2) = 2 ∧
    c1first.1.success = true ∧ c1second.1.success = true :=
  ⟨rfl, rfl, rfl⟩

/-- Claim C2: for each of the four operations, whenever any step of its
try block throws with message `m` (token acquisition, outbound fetch, or
JSON decoding — every throwing step surfaces as `Except.error m` of the
operation's core), the operation returns the envelope
`{success: false, error: <static operation-specific message start> + m}`
(`data` absent), and that error string is non-empty. -/
theorem C2_catch_returns_error_envelope (env : Env) (st : WorkerState)
    (net : Request → FetchOutcome) (amount : String)
    (currency description : Option String) (orderId captureId gid : String)
    (ramount rcurrency note : Option String) (m : String) :
    ((createPaypalOrderCore env st net amount currency description).1 = Except.error m →
      (createPaypalOrder env st net amount currency description).1 =
        ⟨false, none, some ("Failed to create PayPal payment: " ++ m)⟩ ∧
      "Failed to create PayPal payment: " ++ m ≠ "") ∧
    ((capturePaypalOrderCore env st net orderId).1 = Except.error m →
      (capturePaypalOrder env st net orderId).1 =
        ⟨false, none, some ("Failed to capture PayPal payment: " ++ m)⟩ ∧
      "Failed to capture PayPal payment: " ++ m ≠ "") ∧
    ((refundPaypalCaptureCore env st net captureId ramount rcurrency note).1 = Except.error m →
      (refundPaypalCapture env st net captureId ramount rcurrency note).1 =
        ⟨false, none, some ("Failed to process refund: " ++ m)⟩ ∧
      "Failed to process refund: " ++ m ≠ "") ∧
    ((getPaypalOrderCore env st net gid).1 = Except.error m →
      (getPaypalOrder env st net gid).1 =
        ⟨false, none, some ("Failed to get order details: " ++ m)⟩ ∧
      "Failed to get order details: " ++ m ≠ "") :=
  ⟨fun h => ⟨finishOp_error _ _ _ h, append_ne_empty _ _ (by decide)⟩,
   fun h => ⟨finishOp_error _ _ _ h, append_ne_empty _ _ (by decide)⟩,
   fun h => ⟨finishOp_error _ _ _ h, append_ne_empty _ _ (by decide)⟩,
   fun h => ⟨finishOp_error _ _ _ h, append_ne_empty _ _ (by decide)⟩⟩

/-- Witness for C2: on a network where every fetch rejects with `boom`,
each of the four operations returns its prefixed error envelope. -/
theorem C2_catch_returns_error_envelope_witness :
    (createPaypalOrder envFix ⟨none⟩ netThrow "10.00" none none).1 =
      ⟨false, none, some ("Failed to create PayPal payment: " ++ "boom")⟩ ∧
    (capturePaypalOrder envFix ⟨none⟩ netThrow "O-1").1 =
      ⟨false, none, some ("Failed to capture PayPal payment: " ++ "boom")⟩ ∧
    (refundPaypalCapture envFix ⟨none⟩ netThrow "CAP-1" none none none).1 =
      ⟨false, none, some ("Failed to process refund: " ++ "boom")⟩ ∧
    (getPaypalOrder envFix ⟨none⟩ netThrow "O-1").1 =
      ⟨false, none, some ("Failed to get order details: " ++ "boom")⟩ :=
  ⟨((C2_catch_returns_error_envelope envFix ⟨none⟩ netThrow "10.00" none none
      "O-1" "CAP-1" "O-1" none none none "boom").1 rfl).1,
   ((C2_catch_returns_error_envelope envFix ⟨none⟩ netThrow "10.00" none none
      "O-1" "CAP-1" "O-1" none none none "boom").2.1 rfl).1,
   ((C2_catch_returns_error_envelope envFix ⟨none⟩ netThrow "10.00" none none
      "O-1" "CAP-1" "O-1" none none none "boom").2.2.1 rfl).1,
   ((C2_catch_returns_error_envelope envFix ⟨none⟩ netThrow "10.00" none none
      "O-1" "CAP-1" "O-1" none none none "boom").2.2.2 rfl).1⟩

/-- Claim C3: for each of the four operations, when the try block reaches
a parsed response (status and body), the envelope is
`{success: response.ok, data: body}` with no error field, where
`response.ok` means a 2xx status. -/
theorem C3_envelope_mirrors_status (env : Env) (st : WorkerState)
    (net : Request → FetchOutcome) (amount : String)
    (currency description : Option String) (orderId captureId gid : String)
    (ramount rcurrency note : Option String) (status : Nat) (body : Json) :
    ((createPaypalOrderCore env st net amount currency description).1 =
        Except.ok (status, body) →
      (createPaypalOrder env st net amount currency description).1 =
        ⟨responseOk status, some body, none⟩) ∧
    ((capturePaypalOrderCore env st net orderId).1 = Except.ok (status, body) →
      (capturePaypalOrder env st net orderId).1 = ⟨responseOk status, some body, none⟩) ∧
    ((refundPaypalCaptureCore env st net captureId ramount rcurrency note).1 =
        Except.ok (status, body) →
      (refundPaypalCapture env st net captureId ramount rcurrency note).1 =
        ⟨responseOk status, some body, none⟩) ∧
    ((getPaypalOrderCore env st net gid).1 = Except.ok (status, body) →
      (getPaypalOrder env st net gid).1 = ⟨responseOk status, some body, none⟩) ∧
    (responseOk status = true ↔ 200 ≤ status ∧ status < 300) :=
  ⟨fun h => finishOp_ok _ _ _ _ h,
   fun h => finishOp_ok _ _ _ _ h,
   fun h => finishOp_ok _ _ _ _ h,
   fun h => finishOp_ok _ _ _ _ h,
   by simp [responseOk]⟩

/-- Witness for C3: on the happy network each operation resolves with a
2xx status and the parsed body, and the envelope is
`{success: true, data: body}` with no error. -/
theorem C3_envelope_mirrors_status_witness :
    (createPaypalOrder envFix ⟨none⟩ netHappy "10.00" none none).1 =
      ⟨true, some (Json.obj [("id", Json.str "X")]), none⟩ ∧
    (capturePaypalOrder envFix ⟨none⟩ netHappy "ORDER123").1 =
      ⟨true, some captureBodyFix, none⟩ ∧
    (refundPaypalCapture envFix ⟨none⟩ netHappy "CAP-1" none none none).1 =
      ⟨true, some (Json.obj [("id", Json.str "X")]), none⟩ ∧
    (getPaypalOrder envFix ⟨none⟩ netHappy "O-1").1 =
      ⟨true, some (Json.obj [("id", Json.str "X")]), none⟩ :=
  ⟨(C3_envelope_mirrors_status envFix ⟨none⟩ netHappy "10.00" none none
      "ORDER123" "CAP-1" "O-1" none none none 201 (Json.obj [("id", Json.str "X")])).1 rfl,
   (C3_envelope_mirrors_status envFix ⟨none⟩ netHappy "10.00" none none
      "ORDER123" "CAP-1" "O-1" none none none 201 captureBodyFix).2.1 rfl,
   (C3_envelope_mirrors_status envFix ⟨none⟩ netHappy "10.00" none none
      "ORDER123" "CAP-1" "O-1" none none none 201 (Json.obj [("id", Json.str "X")])).2.2.1 rfl,
   (C3_envelope_mirrors_status envFix ⟨none⟩ netHappy "10.00" none none
      "ORDER123" "CAP-1" "O-1" none none none 201 (Json.obj [("id", Json.str "X")])).2.2.2.1 rfl⟩

/-- Claim C4: with resolved mode `sandbox` every outbound URL (token
endpoint and all four operations) has host `api.sandbox.paypal.com`; with
mode `live`, host `api.paypal.com`; and the config resolved at first use
is returned unchanged by every later resolution, even against a changed
environment, so the first-resolved mode fixes the host for every
subsequent outbound call. -/
theorem C4_mode_determines_host (c : PayPalConfig) (orderId captureId : String)
    (env1 env2 : Env) :
    (c.mode = "sandbox" → hostsAre c orderId captureId "api.sandbox.paypal.com") ∧
    (c.mode = "live" → hostsAre c orderId captureId "api.paypal.com") ∧
    (getPayPalConfig env2 (getPayPalConfig env1 none).2).1 = (getPayPalConfig env1 none).1 :=
  ⟨fun h => hostsAre_sandbox c h orderId captureId,
   fun h => hostsAre_live c (by rw [h]; decide) orderId captureId,
   rfl⟩

/-- Witness for C4 at concrete configs and environments. -/
theorem C4_mode_determines_host_witness :
    hostsAre ⟨"sandbox", "cid", "csec"⟩ "O-1" "C-1" "api.sandbox.paypal.com" ∧
    hostsAre ⟨"live", "cid", "csec"⟩ "O-1" "C-1" "api.paypal.com" ∧
    (getPayPalConfig envAlt (getPayPalConfig envFix none).2).1 =
      (getPayPalConfig envFix none).1 :=
  ⟨(C4_mode_determines_host ⟨"sandbox", "cid", "csec"⟩ "O-1" "C-1" envFix envAlt).1 rfl,
   (C4_mode_determines_host ⟨"live", "cid", "csec"⟩ "O-1" "C-1" envFix envAlt).2.1 rfl,
   (C4_mode_determines_host ⟨"sandbox", "cid", "csec"⟩ "O-1" "C-1" envFix envAlt).2.2⟩

/-- Claim C5: the create-order request body carries the caller's amount
string unmodified as `purchase_units[0].amount.value`, and
`currency_code` is the supplied currency, or `USD` when the caller omits
it. -/
theorem C5_amount_passthrough (amount : String) (currency description : Option String) :
    firstPurchaseUnitAmount (paymentJson amount currency description) =
      some (Json.obj [("currency_code", Json.str (currency.getD "USD")),
                      ("value", Json.str amount)]) ∧
    (Json.obj [("currency_code", Json.str (currency.getD "USD")),
               ("value", Json.str amount)]).getField "value" = some (Json.str amount) ∧
    (Json.obj [("currency_code", Json.str (currency.getD "USD")),
               ("value", Json.str amount)]).getField "currency_code" =
      some (Json.str (currency.getD "USD")) ∧
    (currency = none → currency.getD "USD" = "USD") ∧
    (∀ cur, currency = some cur → currency.getD "USD" = cur) := by
  refine ⟨?_, rfl, rfl, fun h => by subst h; rfl, fun cur h => by subst h; rfl⟩
  cases description <;> rfl

/-- Witness for C5 at a concrete amount with and without a currency. -/
theorem C5_amount_passthrough_witness :
    firstPurchaseUnitAmount (paymentJson "10.00" (some "EUR") none) =
      some (Json.obj [("currency_code", Json.str "EUR"), ("value", Json.str "10.00")]) ∧
    Option.getD (none : Option String) "USD" = "USD" ∧
    Option.getD (some "EUR") "USD" = "EUR" :=
  ⟨(C5_amount_passthrough "10.00" (some "EUR") none).1,
   (C5_amount_passthrough "10.00" none none).2.2.2.1 rfl,
   (C5_amount_passthrough "10.00" (some "EUR") none).2.2.2.2 "EUR" rfl⟩

/-- Claim C6 counterexample: on a non-success token status the thrown
message is the source's literal `Failed to get PayPal access token`, not
the claimed `failed to obtain access token`. -/
theorem C6_message_counterexample :
    (getAccessToken envFix ⟨none⟩ netDeny).1 =
      Except.error "Failed to get PayPal access token" ∧
    "Failed to get PayPal access token" ≠ "failed to obtain access token" :=
  ⟨rfl, by decide⟩

/-- Claim C6 (amended): on a non-success HTTP status the token provider
fails with the error message `Failed to get PayPal access token` without
attempting to parse the response body (the conclusion holds even when
decoding the body would itself throw); on success it parses the JSON body
and returns its `access_token` field. -/
theorem C6_token_status_handling (env : Env) (st : WorkerState)
    (net : Request → FetchOutcome) (status : Nat) (bodyE : Except String Json)
    (h : net (tokenRequest (getPayPalConfig env st.paypalConfig).1) =
          FetchOutcome.response status bodyE) :
    (responseOk status = false →
      (getAccessToken env st net).1 = Except.error "Failed to get PayPal access token") ∧
    (∀ body t, responseOk status = true → bodyE = Except.ok body →
      body.getField "access_token" = some (Json.str t) →
      (getAccessToken env st net).1 = Except.ok t) := by
  constructor
  · intro hbad
    simp [getAccessToken, h, tokenOutcome, hbad]
  · intro body t hok hb hf
    subst hb
    simp only [getAccessToken, h, tokenOutcome, hok, if_true]
    cases body <;> simp_all [Json.getField, tokenFromBody, jsProp, jsDisplay]

/-- Witness for C6: a 401 with an undecodable body yields the literal
failure message; a 200 with a well-formed token body yields the token. -/
theorem C6_token_status_handling_witness :
    (getAccessToken envFix ⟨none⟩ netDeny).1 =
      Except.error "Failed to get PayPal access token" ∧
    (getAccessToken envFix ⟨none⟩ netHappy).1 = Except.ok "A21AAFtok" :=
  ⟨(C6_token_status_handling envFix ⟨none⟩ netDeny 401
      (Except.error "Unexpected token < in JSON") rfl).1 rfl,
   (C6_token_status_handling envFix ⟨none⟩ netHappy 200
      (Except.ok tokenBodyFix) rfl).2 tokenBodyFix "A21AAFtok" rfl rfl rfl⟩

/-- Claim C7 counterexample: the caller supplies an amount (the empty
string), yet the refund body contains no `amount` money object — the
source gates on JavaScript truthiness, not on presence, so the claimed
if-and-only-if fails. -/
theorem C7_empty_amount_counterexample :
    (some "" : Option String).isSome = true ∧
    (refundRequestJson (some "") (some "USD") none).getField "amount" = none :=
  ⟨rfl, rfl⟩

/-- Claim C7 (amended): the refund body contains the `amount` money
object iff the caller supplies a non-empty amount string (an empty string
is treated as absent, as JavaScript truthiness does), in which case its
`currency_code` is the supplied currency defaulted to `USD` and its
`value` is the amount; it contains `note_to_payer` iff the caller
supplies a non-empty note; a currency supplied without an amount is
silently ignored; omitted fields are absent rather than null. -/
theorem C7_refund_body_truthy (amount currency note : Option String) :
    (((refundRequestJson amount currency note).getField "amount").isSome ↔
      ∃ s, amount = some s ∧ s ≠ "") ∧
    (∀ s, amount = some s → s ≠ "" →
      (refundRequestJson amount currency note).getField "amount" =
        some (Json.obj [("currency_code", Json.str (currency.getD "USD")),
                        ("value", Json.str s)])) ∧
    (((refundRequestJson amount currency note).getField "note_to_payer").isSome ↔
      ∃ s, note = some s ∧ s ≠ "") ∧
    (∀ s, note = some s → s ≠ "" →
      (refundRequestJson amount currency note).getField "note_to_payer" =
        some (Json.str s)) ∧
    (∀ cur, refundRequestJson none (some cur) note = refundRequestJson none none note) := by
  refine ⟨?_, ?_, ?_, ?_, ?_⟩
  · rw [refund_getField_amount]
    cases amount with
    | none => simp [strTruthy]
    | some a =>
      by_cases ha : a = "" <;> simp [strTruthy, ha]
  · intro s hs hne
    subst hs
    rw [refund_getField_amount]
    simp [strTruthy, hne]
  · rw [refund_getField_note]
    cases note with
    | none => simp [strTruthy]
    | some a =>
      by_cases ha : a = "" <;> simp [strTruthy, ha]
  · intro s hs hne
    subst hs
    rw [refund_getField_note]
    simp [strTruthy, hne]
  · intro cur
    simp [refundRequestJson, strTruthy]

/-- Witness for C7 at a concrete refund with amount, currency and note,
and a concrete currency-without-amount call. -/
theorem C7_refund_body_truthy_witness :
    (refundRequestJson (some "5.00") (some "EUR") (some "thanks")).getField "amount" =
      some (Json.obj [("currency_code", Json.str "EUR"), ("value", Json.str "5.00")]) ∧
    (refundRequestJson (some "5.00") (some "EUR") (some "thanks")).getField "note_to_payer" =
      some (Json.str "thanks") ∧
    refundRequestJson none (some "EUR") none = refundRequestJson none none none :=
  ⟨(C7_refund_body_truthy (some "5.00") (some "EUR") (some "thanks")).2.1
      "5.00" rfl (by decide),
   (C7_refund_body_truthy (some "5.00") (some "EUR") (some "thanks")).2.2.2.1
      "thanks" rfl (by decide),
   (C7_refund_body_truthy none none none).2.2.2.2 "EUR"⟩

/-- Claim C8: a `/success` request with no `token` query parameter is
answered 400 with a body naming the missing parameter, and the handler
issues no outbound request at all (in particular no token request) —
for every environment, worker state, network and `PayerID` value. -/
theorem C8_missing_token_400_no_outbound (env : Env) (st : WorkerState)
    (net : Request → FetchOutcome) (pid : Option String) :
    handleFetch env st net ⟨"/success", none, pid⟩ =
      FetchResult.handled
        ⟨400, "application/json", "\x7b\"error\":\"Missing token parameter\"\x7d"⟩ [] ∧
    strContains "\x7b\"error\":\"Missing token parameter\"\x7d" "Missing token parameter" = true ∧
    fetchOutboundOf (handleFetch env st net ⟨"/success", none, pid⟩) = [] ∧
    countTokenRequests (fetchOutboundOf (handleFetch env st net ⟨"/success", none, pid⟩)) = 0 :=
  ⟨rfl, by decide, rfl, rfl⟩

set_option maxRecDepth 100000 in
/-- Claim C9: for `/success?token=ORDER123` where the internal capture
resolves with a success envelope whose data has status `COMPLETED` and a
first capture amount of `10.00 USD`, the handler renders a 200 HTML page
containing the literal strings `ORDER123`, `COMPLETED` and `10.00 USD`. -/
theorem C9_success_page_contents :
    (fetchRespOf (handleFetch envFix ⟨none⟩ netHappy
        ⟨"/success", some "ORDER123", none⟩)).status = 200 ∧
    (fetchRespOf (handleFetch envFix ⟨none⟩ netHappy
        ⟨"/success", some "ORDER123", none⟩)).contentType = "text/html" ∧
    strContains (fetchRespOf (handleFetch envFix ⟨none⟩ netHappy
        ⟨"/success", some "ORDER123", none⟩)).body "ORDER123" = true ∧
    strContains (fetchRespOf (handleFetch envFix ⟨none⟩ netHappy
        ⟨"/success", some "ORDER123", none⟩)).body "COMPLETED" = true ∧
    strContains (fetchRespOf (handleFetch envFix ⟨none⟩ netHappy
        ⟨"/success", some "ORDER123", none⟩)).body "10.00 USD" = true :=
  ⟨rfl, rfl, rfl, rfl, rfl⟩

/-- Claim C10: an absent or falsy mode binding resolves to `sandbox` and
the sandbox host; the exact string `sandbox` also selects the sandbox
host; but any other non-empty string — `SANDBOX`, `Sandbox`, `prod`, any
typo — resolves to itself and selects the live host `api.paypal.com` for
every outbound URL. -/
theorem C10_only_exact_sandbox (env : Env) (orderId captureId : String) :
    ((env.PAYPAL_MODE = none ∨ env.PAYPAL_MODE = some "") →
      (getPayPalConfig env none).1.mode = "sandbox" ∧
      hostsAre (getPayPalConfig env none).1 orderId captureId "api.sandbox.paypal.com") ∧
    (∀ m, env.PAYPAL_MODE = some m → m ≠ "" → m ≠ "sandbox" →
      (getPayPalConfig env none).1.mode = m ∧
      hostsAre (getPayPalConfig env none).1 orderId captureId "api.paypal.com") ∧
    (env.PAYPAL_MODE = some "sandbox" →
      hostsAre (getPayPalConfig env none).1 orderId captureId "api.sandbox.paypal.com") := by
  refine ⟨?_, ?_, ?_⟩
  · intro h
    have hm : (getPayPalConfig env none).1.mode = "sandbox" := by
      rcases h with h | h <;> simp [getPayPalConfig, strTruthy, h]
    exact ⟨hm, hostsAre_sandbox _ hm orderId captureId⟩
  · intro m hm hne hns
    have hmode : (getPayPalConfig env none).1.mode = m := by
      have : (m == "") = false := beq_eq_false_iff_ne.mpr hne
      simp [getPayPalConfig, strTruthy, hm, this]
    refine ⟨hmode, hostsAre_live _ ?_ orderId captureId⟩
    rw [hmode]
    exact hns
  · intro hm
    have hmode : (getPayPalConfig env none).1.mode = "sandbox" := by
      simp [getPayPalConfig, strTruthy, hm]
    exact hostsAre_sandbox _ hmode orderId captureId

/-- Witness for C10: the upper-case binding `SANDBOX` resolves to itself
and selects the live host; an unset binding resolves to `sandbox` and the
sandbox host. -/
theorem C10_only_exact_sandbox_witness :
    (getPayPalConfig envUpper none).1.mode = "SANDBOX" ∧
    hostsAre (getPayPalConfig envUpper none).1 "O-1" "C-1" "api.paypal.com" ∧
    (getPayPalConfig envUnset none).1.mode = "sandbox" ∧
    hostsAre (getPayPalConfig envUnset none).1 "O-1" "C-1" "api.sandbox.paypal.com" :=
  ⟨((C10_only_exact_sandbox envUpper "O-1" "C-1").2.1 "SANDBOX" rfl
      (by decide) (by decide)).1,
   ((C10_only_exact_sandbox envUpper "O-1" "C-1").2.1 "SANDBOX" rfl
      (by decide) (by decide)).2,
   ((C10_only_exact_sandbox envUnset "O-1" "C-1").1 (Or.inl rfl)).1,
   ((C10_only_exact_sandbox envUnset "O-1" "C-1").1 (Or.inl rfl)).2⟩
